import Mathlib

/-!
Verification of the DSR-FOR-TRAVELS ledger application (src/app.py).

The application is a Streamlit front end over a PostgreSQL store with three
tables: `users`, `opening_outstanding` and `transactions`.  We embed the
database state as Lean lists of rows and each SQL statement / Python handler
as a pure function on that state.

Monetary columns are `NUMERIC(14,2)`, an exact decimal type; SQL arithmetic
over them is exact, so amounts are embedded as rationals (`Rat`).  The
Python-level `float(...)` conversions at the boundary are the subject of a
separate numerical claim and are not modelled here.
-/

namespace DSR

/-- The four values allowed by the `CHECK(entry_type IN ('SALE','REFUND','RECEIPT','ADM'))`
constraint on `transactions.entry_type` (app.py line 93). -/
inductive EntryType
  | SALE
  | REFUND
  | RECEIPT
  | ADM
deriving DecidableEq, Repr

/-- One row of the `transactions` table (app.py lines 87-114).
Text columns are nullable (`Option String`); the monetary columns are
`NUMERIC(14,2) NOT NULL DEFAULT 0`, embedded as `Rat`.  `txnDate` embeds the
`DATE` column as a day number. -/
structure Txn where
  staffUserId : Nat
  txnDate : Int
  entryType : EntryType
  aiCode : Option String
  ticketNumber : Option String
  passengerName : Option String
  route : Option String
  supplier : Option String
  referenceNo : Option String
  notes : Option String
  basicFare : Rat
  comm : Rat
  netToSupp : Rat
  billToCustomer : Rat
  receiptAmount : Rat
  admAmount : Rat
deriving DecidableEq, Repr

/-- One row of the `opening_outstanding` table (app.py lines 78-84):
`staff_user_id` is the primary key, `opening_amount NUMERIC(14,2)`. -/
structure OpeningRow where
  staffUserId : Nat
  openingAmount : Rat
deriving DecidableEq, Repr

/-- One row of the `users` table (app.py lines 65-75).  The bcrypt
`password_hash BYTEA` is embedded abstractly as a `String`. -/
structure UserRow where
  id : Nat
  username : String
  passwordHash : String
  role : String
  staffName : String
  active : Bool
deriving DecidableEq, Repr

/-- The whole database state: the three tables, each as a list of rows in
insertion order. -/
structure DB where
  users : List UserRow
  openings : List OpeningRow
  transactions : List Txn
deriving Repr

/-- The `CASE WHEN` expression inside the `SUM(...)` of `compute_outstanding`
(app.py lines 236-242): SALE adds `bill_to_customer`, REFUND subtracts it,
RECEIPT subtracts `receipt_amount`, ADM adds `adm_amount`.  The SQL `ELSE 0`
arm is unreachable because the `CHECK` constraint admits exactly these four
entry types. -/
def caseMovement (t : Txn) : Rat :=
  match t.entryType with
  | .SALE => t.billToCustomer
  | .REFUND => -t.billToCustomer
  | .RECEIPT => -t.receiptAmount
  | .ADM => t.admAmount

/-- The spec's `movement(entry)` function, written from the spec's own table:
SALE → +bill_to_customer, REFUND → -bill_to_customer, RECEIPT →
-receipt_amount, ADM → +adm_amount.  Kept separate from `caseMovement` so
that the correspondence between spec and code is a theorem, not a
definition. -/
def movement (t : Txn) : Rat :=
  match t.entryType with
  | .SALE => t.billToCustomer
  | .REFUND => -t.billToCustomer
  | .RECEIPT => -t.receiptAmount
  | .ADM => t.admAmount

/-- `get_opening_outstanding` (app.py lines 210-218): `SELECT opening_amount
FROM opening_outstanding WHERE staff_user_id=%s`, first row if any, else 0.
(`staff_user_id` is the table's primary key, so at most one row matches.) -/
def get_opening_outstanding (db : DB) (staffId : Nat) : Rat :=
  match db.openings.find? (fun r => r.staffUserId == staffId) with
  | some r => r.openingAmount
  | none => 0

/-- `compute_outstanding` (app.py lines 221-250): the opening amount plus
`COALESCE(SUM(CASE ... END), 0)` over `transactions WHERE staff_user_id=%s`.
The SQL aggregate is embedded as a left fold of the `CASE` expression over
the matching rows, starting from 0 (which is also the `COALESCE` value when
no row matches). -/
def compute_outstanding (db : DB) (staffId : Nat) : Rat :=
  let opening := get_opening_outstanding db staffId
  let movementSum :=
    (db.transactions.filter (fun t => t.staffUserId == staffId)).foldl
      (fun acc t => acc + caseMovement t) 0
  opening + movementSum

/-- The ASCII whitespace characters Python's `str.strip()` removes:
space, tab, newline, carriage return, vertical tab, form feed. -/
def isPySpace (c : Char) : Bool :=
  c == ' ' || c == '\t' || c == '\n' || c == '\r' ||
    c == Char.ofNat 11 || c == Char.ofNat 12

/-- Python's `str.strip()` (no argument): drop leading and trailing
whitespace.  Defined structurally on the character list so that it
evaluates inside the kernel. -/
def pyStrip (s : String) : String :=
  String.mk (((s.data.dropWhile isPySpace).reverse.dropWhile isPySpace).reverse)

/-- `add_transaction` (app.py lines 256-300), the row it INSERTs: every text
field is passed through Python's `x.strip() or None`. -/
def stripOrNone (s : String) : Option String :=
  if pyStrip s = "" then none else some (pyStrip s)

/-- `add_transaction` (app.py lines 256-300): builds one `transactions` row
from the arguments (text fields via `strip() or None`, amounts via `float`,
exact here) and appends it to the table.  The SQL `INSERT` is an append in
insertion order. -/
def add_transaction (db : DB) (staffId : Nat) (txnDate : Int)
    (entryType : EntryType)
    (aiCode ticketNumber passengerName route supplier referenceNo notes : String)
    (basicFare comm netToSupp billToCustomer receiptAmount admAmount : Rat) : DB :=
  { db with
    transactions := db.transactions ++
      [{ staffUserId := staffId
         txnDate := txnDate
         entryType := entryType
         aiCode := stripOrNone aiCode
         ticketNumber := stripOrNone ticketNumber
         passengerName := stripOrNone passengerName
         route := stripOrNone route
         supplier := stripOrNone supplier
         referenceNo := stripOrNone referenceNo
         notes := stripOrNone notes
         basicFare := basicFare
         comm := comm
         netToSupp := netToSupp
         billToCustomer := billToCustomer
         receiptAmount := receiptAmount
         admAmount := admAmount }] }

/-- Appending an already-built row to the `transactions` table (the effect of
one `INSERT`). -/
def appendTxn (db : DB) (t : Txn) : DB :=
  { db with transactions := db.transactions ++ [t] }

/-- `my_transactions_df` (app.py lines 303-327), restricted to which rows are
returned: `WHERE staff_user_id=%s AND txn_date BETWEEN %s AND %s` — SQL
`BETWEEN` is inclusive at both ends.  The query's `ORDER BY txn_date DESC,
id DESC` only permutes the rows; the embedding keeps insertion order. -/
def my_transactions_df (db : DB) (staffId : Nat) (startD endD : Int) : List Txn :=
  db.transactions.filter
    (fun t => t.staffUserId == staffId && startD ≤ t.txnDate && t.txnDate ≤ endD)

/-- One row of `outstanding_summary_df` (app.py lines 387-421). -/
structure SummaryRow where
  id : Nat
  staffName : String
  username : String
  opening : Rat
  moved : Rat
  outstanding : Rat
deriving DecidableEq, Repr

/-- `outstanding_summary_df` (app.py lines 387-421): one row per
`users` row with `role='staff'` (`WHERE u.role='staff' GROUP BY u.id, ...`).
`Opening` is `COALESCE(o.opening_amount, 0)` from the `LEFT JOIN` on
`opening_outstanding` (keyed on its primary key, so at most one row);
`Movement` is the same `SUM(CASE ...)` aggregate as `compute_outstanding`,
over the user's `LEFT JOIN`ed transactions (no transaction gives the NULL
row, whose `CASE` value is `ELSE 0`, summing to 0); `Outstanding` is the
literal SQL sum of the two expressions.  `ORDER BY u.staff_name` only
permutes the rows; the embedding keeps `users`-table order. -/
def outstanding_summary_df (db : DB) : List SummaryRow :=
  (db.users.filter (fun u => u.role == "staff")).map (fun u =>
    let opening := get_opening_outstanding db u.id
    let moved :=
      (db.transactions.filter (fun t => t.staffUserId == u.id)).foldl
        (fun acc t => acc + caseMovement t) 0
    { id := u.id
      staffName := u.staffName
      username := u.username
      opening := opening
      moved := moved
      outstanding := opening + moved })

/-- The result dict `verify_login` returns on success (app.py line 166). -/
structure AuthUser where
  id : Nat
  username : String
  role : String
  staffName : String
deriving DecidableEq, Repr

/-- `bcrypt.checkpw(password, stored_hash)` (app.py line 165).  Modelled as
an ideal hash comparison: the check succeeds exactly when the supplied
password is the one whose hash is stored.  In the embedding a stored hash is
represented by that password itself. -/
def checkpw (password storedHash : String) : Bool :=
  password == storedHash

/-- `verify_login` (app.py lines 148-167): looks up
`SELECT ... FROM users WHERE username=%s` with the *stripped* supplied
username (`username.strip()`, line 156) — a case-sensitive SQL `=` on the
`TEXT` column, at most one row by the `UNIQUE` constraint, embedded as
`find?`.  Returns `None` when no row matches or the row is inactive
(line 161); otherwise returns the user dict when `bcrypt.checkpw` passes and
`None` when it fails. -/
def verify_login (users : List UserRow) (username password : String) :
    Option AuthUser :=
  match users.find? (fun r => r.username == pyStrip username) with
  | none => none
  | some row =>
    if !row.active then none
    else if checkpw password row.passwordHash then
      some { id := row.id, username := row.username, role := row.role
             staffName := row.staffName }
    else none

/-- What the login form handler (app.py lines 470-481) makes externally
visible after a login attempt: the session user on success, or `none`
together with the single error message `"Invalid login or user inactive."`
shown whenever `verify_login` returns `None`, whatever the cause. -/
def loginOutcome (users : List UserRow) (username password : String) :
    Option AuthUser × String :=
  match verify_login users username password with
  | some u => (some u, "")
  | none => (none, "Invalid login or user inactive.")

/-- The inputs of the staff "New Entry" form (app.py lines 508-555).  All
fields are carried; the form itself blanks the fields that do not belong to
the selected entry type (lines 532-534, 542-544, 551-553), which the save
handler embedding below reproduces. -/
structure EntryForm where
  txnDate : Int
  entryType : EntryType
  notes : String
  aiCode : String
  ticketNumber : String
  passengerName : String
  route : String
  supplier : String
  basicFare : Rat
  comm : Rat
  netToSupp : Rat
  billToCustomer : Rat
  referenceNo : String
  receiptAmount : Rat
  admAmount : Rat
deriving Repr

/-- The "New Entry" save handler (app.py lines 557-612).  Returns the
database after the attempt together with the validation error message, if
any.  For SALE/REFUND it requires non-blank AI (carrier) code, ticket number
and passenger name (line 560) and inserts with the receipt/ADM fields
blanked as the form sets them (lines 532-534); for RECEIPT it requires a
non-blank reference number and `receipt_amount > 0` (line 585); for ADM a
non-blank reference number and `adm_amount > 0` (line 600).  On a validation
error it only calls `st.error` — no insert, the database is returned
unchanged. -/
def saveEntry (db : DB) (staffId : Nat) (f : EntryForm) :
    DB × Option String :=
  match f.entryType with
  | .SALE | .REFUND =>
    if pyStrip f.aiCode == "" || pyStrip f.ticketNumber == "" || pyStrip f.passengerName == "" then
      (db, some "AI Code, Ticket Number, Passenger Name are required.")
    else
      (add_transaction db staffId f.txnDate f.entryType
        f.aiCode f.ticketNumber f.passengerName f.route f.supplier
        "" f.notes
        f.basicFare f.comm f.netToSupp f.billToCustomer 0 0, none)
  | .RECEIPT =>
    if pyStrip f.referenceNo == "" || f.receiptAmount ≤ 0 then
      (db, some "Receipt Ref No and Receipt Amount are required.")
    else
      (add_transaction db staffId f.txnDate .RECEIPT
        "" "" "" "" "" f.referenceNo f.notes
        0 0 0 0 f.receiptAmount 0, none)
  | .ADM =>
    if pyStrip f.referenceNo == "" || f.admAmount ≤ 0 then
      (db, some "ADM Ref No and ADM Amount are required.")
    else
      (add_transaction db staffId f.txnDate .ADM
        "" "" "" "" "" f.referenceNo f.notes
        0 0 0 0 0 f.admAmount, none)

/-- Recording a sequence of already-built rows one `INSERT` at a time. -/
def recordMany (db : DB) (l : List Txn) : DB :=
  l.foldl appendTxn db

/-! Concrete fixtures used to instantiate the theorems below. -/

/-- A database with no rows at all. -/
def emptyDb : DB :=
  { users := [], openings := [], transactions := [] }

/-- A staff user, id 1. -/
def staffRowEx : UserRow :=
  { id := 1, username := "staff1", passwordHash := "pw", role := "staff"
    staffName := "Staff One", active := true }

/-- The spec's worked example: staff user 1 with opening balance 500, then a
SALE with bill_to_customer 200 on day 1, a RECEIPT of 100 on day 2 and an
ADM of 50 on day 3, each recorded through `add_transaction`. -/
def exampleDb : DB :=
  let db0 : DB :=
    { users := [staffRowEx]
      openings := [{ staffUserId := 1, openingAmount := 500 }]
      transactions := [] }
  let db1 := add_transaction db0 1 1 .SALE
    "AI" "TKT100" "PAX" "RUH-DXB" "SUP" "" "" 180 10 170 200 0 0
  let db2 := add_transaction db1 1 2 .RECEIPT
    "" "" "" "" "" "RCP-1" "" 0 0 0 0 100 0
  add_transaction db2 1 3 .ADM
    "" "" "" "" "" "ADM-1" "" 0 0 0 0 0 50

/-- The summary row `outstanding_summary_df` produces for `exampleDb`. -/
def summaryRowEx : SummaryRow :=
  { id := 1, staffName := "Staff One", username := "staff1"
    opening := 500, moved := 150, outstanding := 650 }

/-- A SALE row for staff 1, used as a permutation fixture. -/
def txnA : Txn :=
  { staffUserId := 1, txnDate := 4, entryType := .SALE
    aiCode := some "AI", ticketNumber := some "TKT200"
    passengerName := some "PAX2", route := none, supplier := none
    referenceNo := none, notes := none
    basicFare := 0, comm := 0, netToSupp := 0, billToCustomer := 70
    receiptAmount := 0, admAmount := 0 }

/-- A RECEIPT row for staff 1, used as a permutation fixture. -/
def txnB : Txn :=
  { staffUserId := 1, txnDate := 5, entryType := .RECEIPT
    aiCode := none, ticketNumber := none
    passengerName := none, route := none, supplier := none
    referenceNo := some "RCP-2", notes := none
    basicFare := 0, comm := 0, netToSupp := 0, billToCustomer := 0
    receiptAmount := 30, admAmount := 0 }

/-- An ADM row for staff 1 dated day 9, outside the display window [1, 3]. -/
def txnLate : Txn :=
  { staffUserId := 1, txnDate := 9, entryType := .ADM
    aiCode := none, ticketNumber := none
    passengerName := none, route := none, supplier := none
    referenceNo := some "ADM-9", notes := none
    basicFare := 0, comm := 0, netToSupp := 0, billToCustomer := 0
    receiptAmount := 0, admAmount := 25 }

/-- An active staff user for the login fixtures. -/
def userRowA : UserRow :=
  { id := 1, username := "usera", passwordHash := "pw1", role := "staff"
    staffName := "User A", active := true }

/-- An inactive staff user for the login fixtures. -/
def userRowB : UserRow :=
  { id := 2, username := "userb", passwordHash := "pw2", role := "staff"
    staffName := "User B", active := false }

/-- A user store with one active and one inactive user. -/
def authUsers : List UserRow := [userRowA, userRowB]

/-- A one-user store with an active admin, username `"admin"`. -/
def adminRow : UserRow :=
  { id := 1, username := "admin", passwordHash := "pw", role := "admin"
    staffName := "Root Admin", active := true }

/-- A SALE submission with a blank ticket number and the other required text
fields filled. -/
def formSaleNoTicket : EntryForm :=
  { txnDate := 1, entryType := .SALE, notes := ""
    aiCode := "AI", ticketNumber := "  ", passengerName := "PAX"
    route := "", supplier := ""
    basicFare := 0, comm := 0, netToSupp := 0, billToCustomer := 120
    referenceNo := "", receiptAmount := 0, admAmount := 0 }

/-- A SALE submission with all required text fields filled and every
monetary amount exactly zero. -/
def formSaleZero : EntryForm :=
  { txnDate := 1, entryType := .SALE, notes := ""
    aiCode := "AI", ticketNumber := "TKT300", passengerName := "PAX"
    route := "", supplier := ""
    basicFare := 0, comm := 0, netToSupp := 0, billToCustomer := 0
    referenceNo := "", receiptAmount := 0, admAmount := 0 }

/-! ## Helper lemmas -/

/-- The SQL `SUM` fold equals the sum of the mapped movements. -/
theorem foldl_add_eq_sum (f : Txn → Rat) (l : List Txn) (a : Rat) :
    l.foldl (fun acc t => acc + f t) a = a + (l.map f).sum := by
  induction l generalizing a with
  | nil => simp
  | cons t ts ih => simp [ih, add_assoc]

/-- The SQL `CASE` expression of `compute_outstanding` computes exactly the
spec's `movement` function. -/
theorem caseMovement_eq_movement : caseMovement = movement := rfl

/-- `compute_outstanding` as opening plus the sum of mapped movements. -/
theorem compute_outstanding_eq_sum (db : DB) (staffId : Nat) :
    compute_outstanding db staffId =
      get_opening_outstanding db staffId +
        ((db.transactions.filter (fun t => t.staffUserId == staffId)).map
          movement).sum := by
  show get_opening_outstanding db staffId +
      (db.transactions.filter (fun t => t.staffUserId == staffId)).foldl
        (fun acc t => acc + caseMovement t) 0 = _
  rw [foldl_add_eq_sum caseMovement, zero_add, caseMovement_eq_movement]

/-- `recordMany` appends the recorded rows, touching nothing else. -/
theorem recordMany_transactions (db : DB) (l : List Txn) :
    (recordMany db l).transactions = db.transactions ++ l
      ∧ (recordMany db l).openings = db.openings := by
  induction l generalizing db with
  | nil => simp [recordMany]
  | cons t ts ih =>
    have h := ih (appendTxn db t)
    simp only [recordMany] at h ⊢
    rw [List.foldl_cons]
    refine ⟨?_, ?_⟩
    · rw [h.1]
      simp [appendTxn]
    · rw [h.2]
      rfl

/-! ## Claim theorems -/

/-- C1: for every database state and account, `compute_outstanding` equals
the account's opening balance plus the sum over the account's transactions
of `movement(entry)` (+bill for SALE, -bill for REFUND, -receipt_amount for
RECEIPT, +adm_amount for ADM); and on the worked example — opening 500,
SALE(bill=200), RECEIPT(100), ADM(50) — it computes 650. -/
theorem outstanding_is_opening_plus_movements :
    (∀ (db : DB) (staffId : Nat),
      compute_outstanding db staffId =
        get_opening_outstanding db staffId +
          ((db.transactions.filter (fun t => t.staffUserId == staffId)).map
            movement).sum)
    ∧ compute_outstanding exampleDb 1 = 650 := by
  constructor
  · exact compute_outstanding_eq_sum
  · rw [compute_outstanding_eq_sum]
    norm_num [exampleDb, add_transaction, staffRowEx, get_opening_outstanding,
      movement, List.find?]

/-- C3: recording two permuted sequences of entries yields the same final
outstanding value — insertion order does not matter. -/
theorem outstanding_insertion_order_irrelevant
    (db : DB) (staffId : Nat) (l₁ l₂ : List Txn) (hp : l₁.Perm l₂) :
    compute_outstanding (recordMany db l₁) staffId
      = compute_outstanding (recordMany db l₂) staffId := by
  have h₁ := recordMany_transactions db l₁
  have h₂ := recordMany_transactions db l₂
  have hop : get_opening_outstanding (recordMany db l₁) staffId
      = get_opening_outstanding (recordMany db l₂) staffId := by
    simp [get_opening_outstanding, h₁.2, h₂.2]
  rw [compute_outstanding_eq_sum, compute_outstanding_eq_sum, h₁.1, h₂.1, hop]
  congr 1
  exact List.Perm.sum_eq
    (List.Perm.map movement
      (List.Perm.filter _ (List.Perm.append_left db.transactions hp)))

/-- Witness for C3 at a concrete store: recording the SALE `txnA` then the
RECEIPT `txnB` gives the same outstanding as recording them the other way
round. -/
theorem outstanding_insertion_order_irrelevant_witness :
    compute_outstanding (recordMany exampleDb [txnA, txnB]) 1
      = compute_outstanding (recordMany exampleDb [txnB, txnA]) 1 :=
  outstanding_insertion_order_irrelevant exampleDb 1 [txnA, txnB] [txnB, txnA]
    (List.Perm.swap txnB txnA [])

/-- C4: on any prior history, recording through `add_transaction` a SALE
with bill_to_customer 1000 and then a REFUND with bill_to_customer 1000 on
the same account leaves `compute_outstanding` exactly at its pre-SALE
value, whatever the other fields of the two entries are. -/
theorem sale_refund_roundtrip
    (db : DB) (staffId : Nat) (d₁ d₂ : Int)
    (a₁ t₁ p₁ r₁ s₁ f₁ n₁ a₂ t₂ p₂ r₂ s₂ f₂ n₂ : String)
    (bf₁ cm₁ ns₁ ra₁ ad₁ bf₂ cm₂ ns₂ ra₂ ad₂ : Rat) :
    compute_outstanding
      (add_transaction
        (add_transaction db staffId d₁ .SALE a₁ t₁ p₁ r₁ s₁ f₁ n₁
          bf₁ cm₁ ns₁ 1000 ra₁ ad₁)
        staffId d₂ .REFUND a₂ t₂ p₂ r₂ s₂ f₂ n₂
          bf₂ cm₂ ns₂ 1000 ra₂ ad₂) staffId
      = compute_outstanding db staffId := by
  rw [compute_outstanding_eq_sum, compute_outstanding_eq_sum]
  simp [add_transaction, get_opening_outstanding, List.filter_append,
    movement]

/-- C2: `compute_outstanding` ranges over the account's entire history:
appending an entry whose date lies outside the date window the UI displays
still shifts the outstanding value by exactly that entry's movement, while
the displayed transaction list (`my_transactions_df` over the window) is
unchanged. -/
theorem outstanding_independent_of_display_window
    (db : DB) (staffId : Nat) (startD endD : Int) (t : Txn)
    (hacc : t.staffUserId = staffId)
    (hout : t.txnDate < startD ∨ endD < t.txnDate) :
    compute_outstanding (appendTxn db t) staffId
        = compute_outstanding db staffId + movement t
      ∧ my_transactions_df (appendTxn db t) staffId startD endD
        = my_transactions_df db staffId startD endD := by
  constructor
  · rw [compute_outstanding_eq_sum, compute_outstanding_eq_sum]
    have hop : get_opening_outstanding (appendTxn db t) staffId
        = get_opening_outstanding db staffId := rfl
    rw [hop]
    show get_opening_outstanding db staffId +
        (List.map movement
          (List.filter (fun x => x.staffUserId == staffId)
            (db.transactions ++ [t]))).sum = _
    simp [List.filter_append, hacc, add_assoc]
  · show List.filter _ (db.transactions ++ [t]) = _
    rw [List.filter_append]
    have hfalse :
        (t.staffUserId == staffId && decide (startD ≤ t.txnDate) &&
          decide (t.txnDate ≤ endD)) = false := by
      rcases hout with h | h
      · have hnot : ¬ (startD ≤ t.txnDate) := by omega
        simp [hnot]
      · have hnot : ¬ (t.txnDate ≤ endD) := by omega
        simp [hnot]
    simp [List.filter, hfalse, my_transactions_df]

/-- Witness for C2: appending the day-9 ADM `txnLate` to the example store
while the UI shows days 1..3 changes outstanding by its movement but not the
displayed rows. -/
theorem outstanding_independent_of_display_window_witness :
    compute_outstanding (appendTxn exampleDb txnLate) 1
        = compute_outstanding exampleDb 1 + movement txnLate
      ∧ my_transactions_df (appendTxn exampleDb txnLate) 1 1 3
        = my_transactions_df exampleDb 1 1 3 :=
  outstanding_independent_of_display_window exampleDb 1 1 3 txnLate rfl
    (Or.inr (by decide))

/-- C5: the "New Entry" save handler validates per entry type — SALE/REFUND
need a non-blank carrier (AI) code, ticket number and passenger name;
RECEIPT/ADM need a non-blank reference number and a strictly positive
amount — a validation failure produces an error and leaves the transaction
store untouched, and in particular a SALE with a blank ticket number is
rejected with the entry count unchanged. -/
theorem saveEntry_validation (db : DB) (staffId : Nat) (f : EntryForm) :
    ((f.entryType = .SALE ∨ f.entryType = .REFUND) →
      (((saveEntry db staffId f).2).isSome ↔
        (pyStrip f.aiCode = "" ∨ pyStrip f.ticketNumber = "" ∨
          pyStrip f.passengerName = "")))
    ∧ (f.entryType = .RECEIPT →
      (((saveEntry db staffId f).2).isSome ↔
        (pyStrip f.referenceNo = "" ∨ f.receiptAmount ≤ 0)))
    ∧ (f.entryType = .ADM →
      (((saveEntry db staffId f).2).isSome ↔
        (pyStrip f.referenceNo = "" ∨ f.admAmount ≤ 0)))
    ∧ (((saveEntry db staffId f).2).isSome → (saveEntry db staffId f).1 = db)
    ∧ (f.entryType = .SALE → pyStrip f.ticketNumber = "" →
        ((saveEntry db staffId f).2).isSome
        ∧ ((saveEntry db staffId f).1).transactions.length
            = db.transactions.length) := by
  unfold saveEntry
  cases hft : f.entryType <;> simp only [hft] <;>
    refine ⟨?_, ?_, ?_, ?_, ?_⟩ <;> split <;>
      simp_all [or_assoc]

/-- Witness for C5: submitting `formSaleNoTicket` (a SALE whose ticket
number is blank) against the empty store is rejected and inserts nothing. -/
theorem saveEntry_validation_witness :
    ((saveEntry emptyDb 1 formSaleNoTicket).2).isSome
    ∧ ((saveEntry emptyDb 1 formSaleNoTicket).1).transactions.length
        = emptyDb.transactions.length :=
  (saveEntry_validation emptyDb 1 formSaleNoTicket).2.2.2.2 rfl (by decide)

/-- C6: the three authentication failure causes — existing active user with
a wrong password, inactive user with the correct password, and unknown
username — are externally indistinguishable: each yields no session user and
the one generic message `"Invalid login or user inactive."`. -/
theorem login_failures_indistinguishable
    (users : List UserRow) (uW pW uI pI uN pN : String) (rW rI : UserRow)
    (hW : users.find? (fun r => r.username == pyStrip uW) = some rW)
    (hWa : rW.active = true)
    (hWp : checkpw pW rW.passwordHash = false)
    (hI : users.find? (fun r => r.username == pyStrip uI) = some rI)
    (hIa : rI.active = false)
    (_hIp : checkpw pI rI.passwordHash = true)
    (hN : users.find? (fun r => r.username == pyStrip uN) = none) :
    loginOutcome users uW pW = (none, "Invalid login or user inactive.")
    ∧ loginOutcome users uI pI = (none, "Invalid login or user inactive.")
    ∧ loginOutcome users uN pN = (none, "Invalid login or user inactive.") := by
  unfold loginOutcome verify_login
  rw [hW, hI, hN]
  simp [hWa, hWp, hIa]

/-- Witness for C6 on a concrete two-user store. -/
theorem login_failures_indistinguishable_witness :
    loginOutcome authUsers "usera" "wrongpw"
        = (none, "Invalid login or user inactive.")
    ∧ loginOutcome authUsers "userb" "pw2"
        = (none, "Invalid login or user inactive.")
    ∧ loginOutcome authUsers "nosuchuser" "pw1"
        = (none, "Invalid login or user inactive.") :=
  login_failures_indistinguishable authUsers
    "usera" "wrongpw" "userb" "pw2" "nosuchuser" "pw1"
    userRowA userRowB
    (by decide) (by decide) (by decide) (by decide) (by decide) (by decide)
    (by decide)

/-- C7 counterexample: the claim says `verify_login` fails for any supplied
string that differs character-for-character from the stored username, but
the code strips the supplied username first (app.py line 156): `" admin"`
differs from the stored `"admin"` yet logs in successfully. -/
theorem login_exact_match_counterexample :
    " admin" ≠ adminRow.username
    ∧ verify_login [adminRow] " admin" "pw"
        = some { id := 1, username := "admin", role := "admin"
                 staffName := "Root Admin" } := by
  exact ⟨by decide, by decide⟩

/-- C7 (amended): `verify_login` looks the account up by exact,
case-sensitive match of the *whitespace-stripped* supplied username: only
the stripped form matters, and when no stored username equals it the login
fails. -/
theorem login_lookup_trimmed_exact (users : List UserRow) (u p : String) :
    ((∀ r ∈ users, r.username ≠ pyStrip u) → verify_login users u p = none)
    ∧ ∀ v, pyStrip v = pyStrip u →
        verify_login users v p = verify_login users u p := by
  constructor
  · intro h
    unfold verify_login
    have hnone : users.find? (fun r => r.username == pyStrip u) = none := by
      apply List.find?_eq_none.mpr
      intro r hr
      simp [h r hr]
    rw [hnone]
  · intro v hv
    unfold verify_login
    rw [hv]

/-- Witness for the amended C7: `"ADMIN"` matches no stored username of the
one-admin store (the lookup is case-sensitive), so the login fails. -/
theorem login_lookup_trimmed_exact_witness :
    verify_login [adminRow] "ADMIN" "pw" = none :=
  (login_lookup_trimmed_exact [adminRow] "ADMIN" "pw").1 (by decide)

/-- C9: `outstanding_summary_df` produces exactly one row per staff user (in
`users`-table order), and every row satisfies
`outstanding = opening + movement` with the same outstanding value that
`compute_outstanding` yields for that user on the same store. -/
theorem summary_rows_match_outstanding (db : DB) :
    ((outstanding_summary_df db).map SummaryRow.id
      = (db.users.filter (fun u => u.role == "staff")).map UserRow.id)
    ∧ ∀ r ∈ outstanding_summary_df db,
        r.outstanding = r.opening + r.moved
        ∧ r.outstanding = compute_outstanding db r.id := by
  constructor
  · unfold outstanding_summary_df
    rw [List.map_map]
    rfl
  · intro r hr
    unfold outstanding_summary_df at hr
    rw [List.mem_map] at hr
    obtain ⟨u, hu, hru⟩ := hr
    subst hru
    exact ⟨rfl, rfl⟩

/-- Witness for C9: the summary row of the example store — opening 500,
movement 150, outstanding 650 — agrees with `compute_outstanding`. -/
theorem summary_rows_match_outstanding_witness :
    summaryRowEx.outstanding = summaryRowEx.opening + summaryRowEx.moved
    ∧ summaryRowEx.outstanding = compute_outstanding exampleDb summaryRowEx.id := by
  have hmem : summaryRowEx ∈ outstanding_summary_df exampleDb := by
    have h : outstanding_summary_df exampleDb = [summaryRowEx] := by
      norm_num [outstanding_summary_df, exampleDb, staffRowEx, add_transaction,
        get_opening_outstanding, caseMovement, summaryRowEx, List.find?]
    rw [h]
    exact List.mem_singleton.mpr rfl
  exact (summary_rows_match_outstanding exampleDb).2 summaryRowEx hmem

/-- C10: the strictly-positive-amount rule binds only RECEIPT and ADM: a
SALE or REFUND whose carrier (AI) code, ticket number and passenger name are
non-blank is accepted even with every monetary amount exactly zero, and the
appended entry's movement is zero. -/
theorem sale_zero_amounts_accepted (db : DB) (staffId : Nat) (f : EntryForm)
    (hty : f.entryType = .SALE ∨ f.entryType = .REFUND)
    (hai : pyStrip f.aiCode ≠ "") (htk : pyStrip f.ticketNumber ≠ "")
    (hpx : pyStrip f.passengerName ≠ "")
    (_hbf : f.basicFare = 0) (_hcm : f.comm = 0) (_hns : f.netToSupp = 0)
    (hbc : f.billToCustomer = 0) :
    (saveEntry db staffId f).2 = none
    ∧ ∃ t, ((saveEntry db staffId f).1).transactions = db.transactions ++ [t]
        ∧ t.entryType = f.entryType ∧ movement t = 0 := by
  have hcond : (pyStrip f.aiCode == "" || pyStrip f.ticketNumber == "" ||
      pyStrip f.passengerName == "") = false := by
    simp [hai, htk, hpx]
  rcases hty with hft | hft <;>
    · simp only [saveEntry, hft, hcond, Bool.false_eq_true, if_false]
      refine ⟨trivial, ?_⟩
      refine ⟨_, rfl, rfl, ?_⟩
      simp [movement, add_transaction, hbc]

/-- Witness for C10: a SALE with all amounts zero is accepted on the empty
store and appends an entry of movement zero. -/
theorem sale_zero_amounts_accepted_witness :
    (saveEntry emptyDb 1 formSaleZero).2 = none
    ∧ ∃ t, ((saveEntry emptyDb 1 formSaleZero).1).transactions
          = emptyDb.transactions ++ [t]
        ∧ t.entryType = formSaleZero.entryType ∧ movement t = 0 :=
  sale_zero_amounts_accepted emptyDb 1 formSaleZero (Or.inl rfl)
    (by decide) (by decide) (by decide) rfl rfl rfl rfl

end DSR
